import Mathlib

/-!
Verification development for the `go-dbkit` distributed lock manager
(`distrlock` package and its collaborators).  The Go sources are embedded
shallowly: pure control flow becomes Lean functions, SQL statements acting on
the single lock row become explicit state transitions, fallible calls return
`Option`/`Except`, and side effects that the specification talks about
(statement execution, rollbacks, release attempts) are recorded as explicit
event traces.
-/

namespace DbKit

/-! ## Dialect constants (`constants.go`)

`Dialect` is a string type in the source; the five declared constants are the
values used by the library. -/

def DialectSQLite : String := "sqlite3"

def DialectMySQL : String := "mysql"

def DialectPostgres : String := "postgres"

def DialectPgx : String := "pgx"

def DialectMSSQL : String := "mssql"

/-! ## Dialect query templates (`distrlock/db_lock.go`)

Each Go template is a `fmt.Sprintf` format with a single `%s` slot for the
table name; here each becomes a function of the table name producing the same
SQL text. -/

def defaultTableName : String := "distributed_locks"

def postgresCreateTableQuery (t : String) : String :=
  "CREATE TABLE \"" ++ t ++ "\" (lock_key varchar(40) PRIMARY KEY, token uuid, expire_at timestamp);"

def postgresDropTableQuery (t : String) : String :=
  "DROP TABLE IF EXISTS \"" ++ t ++ "\";"

def postgresInitLockQuery (t : String) : String :=
  "INSERT INTO \"" ++ t ++ "\" (lock_key) VALUES ($1) ON CONFLICT (lock_key) DO NOTHING;"

def postgresAcquireLockQuery (t : String) : String :=
  "UPDATE \"" ++ t ++ "\" SET expire_at = NOW() + $1::interval, token = $2 WHERE lock_key = $3 AND ((expire_at IS NULL OR expire_at < NOW()) OR token = $4);"

def postgresReleaseLockQuery (t : String) : String :=
  "UPDATE \"" ++ t ++ "\" SET expire_at = NULL WHERE lock_key = $1 AND token = $2 AND expire_at >= NOW();"

def postgresExtendLockQuery (t : String) : String :=
  "UPDATE \"" ++ t ++ "\" SET expire_at = NOW() + $1::interval WHERE lock_key = $2 AND token = $3 AND expire_at >= NOW();"

/-- `time.Duration` is a count of nanoseconds; `Duration.Microseconds()` is
integer division by 1000 truncating toward zero (`Int.tdiv`). -/
def durationMicroseconds (d : Int) : Int := Int.tdiv d 1000

/-- `postgresMakeInterval` renders a TTL as a Postgres interval literal. -/
def postgresMakeInterval (interval : Int) : String :=
  toString (durationMicroseconds interval) ++ " microseconds"

def mySQLCreateTableQuery (t : String) : String :=
  "CREATE TABLE `" ++ t ++ "` (lock_key VARCHAR(40) PRIMARY KEY, token VARCHAR(36), expire_at BIGINT);"

def mySQLDropTableQuery (t : String) : String :=
  "DROP TABLE IF EXISTS `" ++ t ++ "`;"

def mySQLInitLockQuery (t : String) : String :=
  "INSERT IGNORE `" ++ t ++ "` (lock_key) VALUES (?);"

def mySQLAcquireLockQuery (t : String) : String :=
  "UPDATE `" ++ t ++ "` SET expire_at = UNIX_TIMESTAMP(DATE_ADD(CURTIME(4), INTERVAL ? MICROSECOND))*10000, token = ? WHERE lock_key = ? AND ((expire_at IS NULL OR expire_at < UNIX_TIMESTAMP(CURTIME(4))*10000) OR token = ?);"

def mySQLReleaseLockQuery (t : String) : String :=
  "UPDATE `" ++ t ++ "` SET expire_at = NULL WHERE lock_key = ? AND token = ? AND expire_at >= UNIX_TIMESTAMP(CURTIME(4))*10000;"

def mySQLExtendLockQuery (t : String) : String :=
  "UPDATE `" ++ t ++ "` SET expire_at = UNIX_TIMESTAMP(DATE_ADD(CURTIME(4), INTERVAL ? MICROSECOND))*10000 WHERE lock_key = ? AND token = ? AND expire_at >= UNIX_TIMESTAMP(CURTIME(4))*10000;"

/-- `mySQLMakeInterval` renders a TTL as a bare microsecond count. -/
def mySQLMakeInterval (interval : Int) : String :=
  toString (durationMicroseconds interval)

/-! ## Lock manager construction (`distrlock/db_lock.go`) -/

/-- Error returned by `newDBQueries` for a dialect it does not support
(`fmt.Errorf("unsupported sql dialect %q", dialect)`), kept structured so the
dialect is carried verbatim. -/
inductive ManagerError where
  | unsupportedDialect (dialect : String)
deriving DecidableEq, Repr

/-- The per-dialect query set held by a `DBManager` (struct `dbQueries`). -/
structure dbQueries where
  createTable : String
  dropTable : String
  initLock : String
  acquireLock : String
  releaseLock : String
  extendLock : String
  intervalMaker : Int → String

/-- The Postgres/pgx branch of `newDBQueries`. -/
def postgresQueriesFor (tableName : String) : dbQueries where
  createTable := postgresCreateTableQuery tableName
  dropTable := postgresDropTableQuery tableName
  initLock := postgresInitLockQuery tableName
  acquireLock := postgresAcquireLockQuery tableName
  releaseLock := postgresReleaseLockQuery tableName
  extendLock := postgresExtendLockQuery tableName
  intervalMaker := postgresMakeInterval

/-- The MySQL branch of `newDBQueries`. -/
def mySQLQueriesFor (tableName : String) : dbQueries where
  createTable := mySQLCreateTableQuery tableName
  dropTable := mySQLDropTableQuery tableName
  initLock := mySQLInitLockQuery tableName
  acquireLock := mySQLAcquireLockQuery tableName
  releaseLock := mySQLReleaseLockQuery tableName
  extendLock := mySQLExtendLockQuery tableName
  intervalMaker := mySQLMakeInterval

/-- `newDBQueries`: the `switch dialect` with cases
`DialectPostgres, DialectPgx`, `DialectMySQL`, and the error default. -/
def newDBQueries (dialect : String) (tableName : String) : Except ManagerError dbQueries :=
  if dialect = DialectPostgres ∨ dialect = DialectPgx then
    .ok (postgresQueriesFor tableName)
  else if dialect = DialectMySQL then
    .ok (mySQLQueriesFor tableName)
  else
    .error (.unsupportedDialect dialect)

/-- `DBManager` holds the dialect's query set. -/
structure DBManager where
  queries : dbQueries

/-- `DBManagerOpts` (only the table name). -/
structure DBManagerOpts where
  TableName : String

/-- `NewDBManagerWithOpts` builds the queries and wraps them in a manager,
propagating the `newDBQueries` error. -/
def NewDBManagerWithOpts (dialect : String) (opts : DBManagerOpts) : Except ManagerError DBManager :=
  match newDBQueries dialect opts.TableName with
  | .error e => .error e
  | .ok q => .ok ⟨q⟩

/-- `NewDBManager` delegates with the default table name. -/
def NewDBManager (dialect : String) : Except ManagerError DBManager :=
  NewDBManagerWithOpts dialect ⟨defaultTableName⟩

/-! ## Row-level semantics of the lock statements

The lock table has at most one row per key:
`(lock_key, token NULL-able, expire_at NULL-able)`.  A single key's row is an
`Option LockRow` (the row may not exist yet).  Server time is an abstract
instant `now : Nat`; `expire_at` is an absolute instant.  The SQL comparisons
follow three-valued logic: a comparison with a NULL column is not TRUE, so a
NULL `token` never matches `token = $x` and a NULL `expire_at` never satisfies
`expire_at >= NOW()`. -/

structure LockRow where
  token : Option String
  expireAt : Option Nat
deriving DecidableEq, Repr

/-- SQL `expire_at IS NULL OR expire_at < NOW()` (the row is free). -/
def sqlFreeCond (expireAt : Option Nat) (now : Nat) : Bool :=
  match expireAt with
  | none => true
  | some e => decide (e < now)

/-- SQL `token = $x` under three-valued logic (NULL never matches). -/
def sqlTokenEq (token : Option String) (x : String) : Bool :=
  match token with
  | none => false
  | some s => decide (s = x)

/-- SQL `token = $x AND expire_at >= NOW()` — the guard shared by the
release and extend statements. -/
def sqlHeldByCond (r : LockRow) (x : String) (now : Nat) : Bool :=
  sqlTokenEq r.token x && (match r.expireAt with
    | none => false
    | some e => decide (now ≤ e))

/-- WHERE clause of `postgresAcquireLockQuery` / `mySQLAcquireLockQuery`:
`(expire_at IS NULL OR expire_at < NOW()) OR token = $tok`. -/
def acquireMatches (now : Nat) (r : LockRow) (tok : String) : Bool :=
  sqlFreeCond r.expireAt now || sqlTokenEq r.token tok

/-- One atomic execution of the acquire UPDATE on the key's row: returns the
new row and the affected-row count (`1` when the WHERE clause matched, else
`0`).  On a match it sets `expire_at = NOW() + interval` and `token = tok`. -/
def acquireStep (now ttl : Nat) (tok : String) (r : LockRow) : LockRow × Nat :=
  if acquireMatches now r tok then
    ({ token := some tok, expireAt := some (now + ttl) }, 1)
  else (r, 0)

/-- One atomic execution of the release UPDATE: clears `expire_at` when the
row still carries `tok` unexpired. -/
def releaseStep (now : Nat) (tok : String) (r : LockRow) : LockRow × Nat :=
  if sqlHeldByCond r tok now then ({ r with expireAt := none }, 1) else (r, 0)

/-- One atomic execution of the extend UPDATE: advances `expire_at` when the
row still carries `tok` unexpired. -/
def extendStep (now ttl : Nat) (tok : String) (r : LockRow) : LockRow × Nat :=
  if sqlHeldByCond r tok now then ({ r with expireAt := some (now + ttl) }, 1) else (r, 0)

/-- A key is held by `tok` at instant `now`: its row exists, carries `tok`,
and `expire_at` is set and not yet past. -/
def heldBy (now : Nat) (row : Option LockRow) (tok : String) : Prop :=
  ∃ r, row = some r ∧ r.token = some tok ∧ ∃ e, r.expireAt = some e ∧ now ≤ e

/-- A row is free at `now`: `expire_at` NULL or already past. -/
def rowFreeAt (now : Nat) (r : LockRow) : Prop :=
  r.expireAt = none ∨ ∃ e, r.expireAt = some e ∧ e < now

/-! ## Handle operations (`distrlock/db_lock.go`)

Errors are modelled as an inductive value type.  `lockAlreadyAcquired` and
`lockAlreadyReleased` are the sentinels from the `distrlock` package;
`invalidKey` carries the literal `fmt.Errorf` message from `NewLock`;
`ctxError` is whatever non-nil error `ctx.Err()` yields (`context.Canceled`
or `context.DeadlineExceeded`); `driverError` is an opaque error from the
database driver. -/

inductive LockError where
  | lockAlreadyAcquired
  | lockAlreadyReleased
  | invalidKey (msg : String)
  | ctxError (code : Nat)
  | driverError (code : Nat)
deriving DecidableEq, Repr

instance {ε α : Type} [DecidableEq ε] [DecidableEq α] : DecidableEq (Except ε α) := fun a b =>
  match a, b with
  | .error e, .error f =>
    if h : e = f then isTrue (by rw [h]) else isFalse (by intro hh; cases hh; exact h rfl)
  | .ok x, .ok y =>
    if h : x = y then isTrue (by rw [h]) else isFalse (by intro hh; cases hh; exact h rfl)
  | .error _, .ok _ => isFalse (by intro hh; cases hh)
  | .ok _, .error _ => isFalse (by intro hh; cases hh)

/-- Outcome of `executor.ExecContext`: either the call itself fails, or it
returns a `sql.Result` whose `RowsAffected()` either fails or yields a
count. -/
inductive ExecOutcome where
  | fail (e : LockError)
  | ok (rowsAffected : Except LockError Int)
deriving DecidableEq, Repr

/-- The `sqlExecutor` interface: executing a parameterized statement under a
context.  The interval argument produced by `intervalMaker` is a string, so
all statement arguments are strings. -/
structure sqlExecutor where
  run : String → List String → ExecOutcome

/-- `execQueryAndCheck`: execute the statement; propagate a driver error;
then (work-around for drivers that swallow cancellation) return `ctx.Err()`
if the context is done; then require exactly one affected row, translating
any other count into `errOnNoAffectedRows`.  `ctxErr` is the value of
`ctx.Err()` observed after execution. -/
def execQueryAndCheck (executor : sqlExecutor) (ctxErr : Option LockError)
    (query : String) (args : List String) (errOnNoAffectedRows : LockError) :
    Option LockError :=
  match executor.run query args with
  | .fail e => some e
  | .ok rowsAffected =>
    match ctxErr with
    | some ce => some ce
    | none =>
      match rowsAffected with
      | .error e => some e
      | .ok affected => if affected = 1 then none else some errOnNoAffectedRows

/-- The client-side lock handle.  The Go struct also carries a pointer to its
manager; here the manager's `dbQueries` are passed to each operation
explicitly. -/
structure DBLock where
  Key : String
  TTL : Int := 0
  token : String := ""
deriving DecidableEq, Repr

/-- `NewLock`: validate the key, run `initLock` (insert-if-absent), and
return a handle with empty token.  The second component records the
statements actually executed (query text with arguments), so "no SQL
executed" is observable. -/
def NewLock (q : dbQueries) (executor : sqlExecutor) (key : String) :
    Except LockError DBLock × List (String × List String) :=
  if key = "" then
    (.error (.invalidKey "lock key cannot be empty"), [])
  else if key.utf8ByteSize > 40 then
    (.error (.invalidKey "lock key cannot be longer than 40 symbols"), [])
  else
    match executor.run q.initLock [key] with
    | .fail e => (.error e, [(q.initLock, [key])])
    | .ok _ => (.ok { Key := key }, [(q.initLock, [key])])

/-- `AcquireWithStaticToken`: run the acquire statement with arguments
`(interval, token, key, token)`; on success store `lockTTL` and `token` on
the handle; on failure return the handle unchanged together with the
error. -/
def AcquireWithStaticToken (q : dbQueries) (l : DBLock) (executor : sqlExecutor)
    (ctxErr : Option LockError) (token : String) (lockTTL : Int) :
    DBLock × Option LockError :=
  let interval := q.intervalMaker lockTTL
  match execQueryAndCheck executor ctxErr q.acquireLock [interval, token, l.Key, token]
      .lockAlreadyAcquired with
  | some e => (l, some e)
  | none => ({ l with TTL := lockTTL, token := token }, none)

/-- `Acquire` delegates to `AcquireWithStaticToken` with a freshly generated
UUID; the generated string is passed in as `freshToken`. -/
def Acquire (q : dbQueries) (l : DBLock) (executor : sqlExecutor)
    (ctxErr : Option LockError) (freshToken : String) (lockTTL : Int) :
    DBLock × Option LockError :=
  AcquireWithStaticToken q l executor ctxErr freshToken lockTTL

/-- `Release`: run the release statement with `(key, handle.token)`. -/
def Release (q : dbQueries) (l : DBLock) (executor : sqlExecutor)
    (ctxErr : Option LockError) : Option LockError :=
  execQueryAndCheck executor ctxErr q.releaseLock [l.Key, l.token] .lockAlreadyReleased

/-- `Extend`: run the extend statement with
`(interval = handle.TTL, key, handle.token)`. -/
def Extend (q : dbQueries) (l : DBLock) (executor : sqlExecutor)
    (ctxErr : Option LockError) : Option LockError :=
  execQueryAndCheck executor ctxErr q.extendLock
    [q.intervalMaker l.TTL, l.Key, l.token] .lockAlreadyReleased

/-- `Token` returns the token of the last acquired lock. -/
def Token (l : DBLock) : String := l.token

/-- Row-level acquire combined with the affected-rows check of
`execQueryAndCheck` (context not cancelled, no driver error): at most one row
can match, so success is `affected = 1`, otherwise `ErrLockAlreadyAcquired`. -/
def acquireAtRow (now ttl : Nat) (tok : String) (r : LockRow) : LockRow × Option LockError :=
  ((acquireStep now ttl tok r).1,
   if (acquireStep now ttl tok r).2 = 1 then none else some .lockAlreadyAcquired)

/-! ## Sequences of acquire operations on one handle -/

/-- The inputs of one `AcquireWithStaticToken` call: the executor and context
state seen by that call, the token passed, and the TTL. -/
structure AcquireCall where
  executor : sqlExecutor
  ctxErr : Option LockError
  token : String
  lockTTL : Int

/-- Run a sequence of `AcquireWithStaticToken` calls on the handle, keeping
the updated handle after each call (the source mutates the receiver). -/
def applyAcquireCalls (q : dbQueries) (l : DBLock) (calls : List AcquireCall) : DBLock :=
  calls.foldl
    (fun h c => (AcquireWithStaticToken q h c.executor c.ctxErr c.token c.lockTTL).1) l

/-- Whether one acquire call on a handle with key `key` succeeds.  The
statement's arguments depend on the handle only through its (immutable) key,
so success is a function of the key and the call alone. -/
def acquireCallSucceeds (q : dbQueries) (key : String) (c : AcquireCall) : Bool :=
  match execQueryAndCheck c.executor c.ctxErr q.acquireLock
      [q.intervalMaker c.lockTTL, c.token, key, c.token] .lockAlreadyAcquired with
  | none => true
  | some _ => false

/-- The token of the most recent successful call in the sequence, or the
starting token `start` when no call succeeded. -/
def lastSuccessToken (q : dbQueries) (key : String) (calls : List AcquireCall)
    (start : String) : String :=
  calls.foldl (fun acc c => if acquireCallSucceeds q key c then c.token else acc) start

/-! ## Transaction helper `DoInTx` / `DoInTxWithOpts` (package `dbkit`)

The helper begins a transaction, runs `fn`, and commits or rolls back in a
deferred block that also re-raises panics.  The model takes the outcomes of
the three driver calls (`BeginTx`, `Commit`, `Rollback`) and of `fn` as
inputs, returns the helper's outcome, and records the externally visible
events in order. -/

/-- Errors flowing through the transaction helper.  `beginError` and
`commitError` model `fmt.Errorf("begin tx: %w", err)` /
`fmt.Errorf("commit tx: %w", err)`, which wrap the cause. -/
inductive TxError where
  | base (code : Nat)
  | beginError (inner : TxError)
  | commitError (inner : TxError)
deriving DecidableEq, Repr

/-- What `fn(tx)` does: return `nil`, return an error, or panic. -/
inductive FnOutcome where
  | ok
  | err (e : TxError)
  | panics (p : Nat)
deriving DecidableEq, Repr

inductive TxEvent where
  | beganTx
  | fnCalled
  | rolledBack
  | committed
deriving DecidableEq, Repr

/-- Result of the helper: a normal return carrying `nil` or an error, or a
re-raised panic value. -/
inductive TxOutcome where
  | ret (e : Option TxError)
  | panicked (p : Nat)
deriving DecidableEq, Repr

/-- `DoInTxWithOpts`: begin; on begin failure return the wrapped cause
without calling `fn`.  Otherwise call `fn`; a panic rolls back (its error is
discarded) and re-raises; an error rolls back (its error is discarded) and is
returned unchanged; a normal return commits, wrapping a commit failure.
`rollbackErr` is the outcome of `tx.Rollback()`, which the source assigns to
`_`. -/
def DoInTxWithOpts (beginErr : Option TxError) (commitErr : Option TxError)
    (rollbackErr : Option TxError) (fnRes : FnOutcome) : TxOutcome × List TxEvent :=
  match beginErr with
  | some e => (.ret (some (.beginError e)), [])
  | none =>
    match fnRes with
    | .panics p => (.panicked p, [.beganTx, .fnCalled, .rolledBack])
    | .err e => (.ret (some e), [.beganTx, .fnCalled, .rolledBack])
    | .ok =>
      match commitErr with
      | some ce => (.ret (some (.commitError ce)), [.beganTx, .fnCalled, .committed])
      | none => (.ret none, [.beganTx, .fnCalled, .committed])

/-- `DoInTx` delegates to `DoInTxWithOpts` with `nil` transaction options
(the options do not influence the helper's own control flow). -/
def DoInTx (beginErr : Option TxError) (commitErr : Option TxError)
    (rollbackErr : Option TxError) (fnRes : FnOutcome) : TxOutcome × List TxEvent :=
  DoInTxWithOpts beginErr commitErr rollbackErr fnRes

/-! ## Lease supervisor `DoExclusively` (`distrlock/db_lock.go`)

The sequential skeleton of `DoExclusively`: acquire in a transaction, run the
user function, and — in deferred blocks, in this order — wait for the
periodic-extension goroutine to stop and then attempt release under a fresh
`context.Background()` with timeout `releaseTimeout`, logging (not returning)
any release error.  The periodic extension goroutine itself is abstracted to
its shutdown handshake, recorded as the `extensionStopped` event. -/

/-- The context the release transaction runs under: always a fresh background
context bounded by the given timeout. -/
inductive ReleaseCtx where
  | freshBackgroundWithTimeout (timeout : Int)
deriving DecidableEq, Repr

inductive DoExEvent where
  | fnCalled
  | extensionStopped
  | releaseAttempted (ctx : ReleaseCtx)
  | releaseErrorLogged (e : LockError)
deriving DecidableEq, Repr

/-- `DoExclusively`, sequential skeleton.  `acquireRes` is the outcome of the
initial acquire transaction; `fn` receives the child context's state (which
is cancelled whenever the caller's context is); `releaseRes` is the outcome
of the release transaction. -/
def DoExclusively (acquireRes : Option LockError) (callerCtxCanceled : Bool)
    (fn : Bool → Option LockError) (releaseRes : Option LockError)
    (releaseTimeout : Int) : Option LockError × List DoExEvent :=
  match acquireRes with
  | some e => (some e, [])
  | none =>
    let fnResult := fn callerCtxCanceled
    let releaseEvents :=
      [DoExEvent.releaseAttempted (.freshBackgroundWithTimeout releaseTimeout)] ++
        (match releaseRes with
         | some re => [DoExEvent.releaseErrorLogged re]
         | none => [])
    (fnResult, [DoExEvent.fnCalled, DoExEvent.extensionStopped] ++ releaseEvents)

/-! ## Retry classifier (package `dbkit`, `retryable.go`)

Errors form a causal chain through `errors.Unwrap`; predicates are per-driver
and composed by `RegisterIsRetryableFunc`. -/

/-- A Go error with its `Unwrap` chain: a leaf, or a wrapper around a
cause. -/
inductive GoErr where
  | leaf (tag : Nat)
  | wrap (tag : Nat) (cause : GoErr)
deriving DecidableEq, Repr

/-- `errors.Unwrap`. -/
def unwrapErr : GoErr → Option GoErr
  | .leaf _ => none
  | .wrap _ c => some c

/-- The causal chain visited by `for ; e != nil; e = errors.Unwrap(e)`. -/
def errChain : GoErr → List GoErr
  | .leaf t => [.leaf t]
  | .wrap t c => .wrap t c :: errChain c

/-- The predicate returned for an unregistered driver. -/
def isRetryableNoDriver (_ : GoErr) : Bool := false

/-- The closure stored by `RegisterIsRetryableFunc`: walk the unwrap chain
and at each element consult the previously registered predicate (when one
exists) and then the newly registered one. -/
def registerIsRetryableFunc (prev : Option (GoErr → Bool)) (retryable : GoErr → Bool) :
    GoErr → Bool :=
  fun e =>
    (errChain e).any fun x =>
      (match prev with
       | some p => p x
       | none => false) || retryable x

/-- The registry entry for one driver after the given sequence of
`RegisterIsRetryableFunc` calls, in registration (FIFO) order; `none` when
the driver was never registered. -/
def registryAfter (regs : List (GoErr → Bool)) : Option (GoErr → Bool) :=
  regs.foldl (fun prev f => some (registerIsRetryableFunc prev f)) none

/-- `GetIsRetryable`: the registered predicate, or the always-false one. -/
def getIsRetryable (reg : Option (GoErr → Bool)) : GoErr → Bool :=
  match reg with
  | some r => r
  | none => isRetryableNoDriver

/-- Wrap an error in the given causal layers, outermost first. -/
def wrapLayers (tags : List Nat) (e : GoErr) : GoErr :=
  tags.foldr .wrap e

/-- A driver that reports one affected row for every statement. -/
def execAlwaysOne : sqlExecutor := ⟨fun _ _ => .ok (.ok 1)⟩

/-- A driver that reports zero affected rows for every statement. -/
def execAlwaysZero : sqlExecutor := ⟨fun _ _ => .ok (.ok 0)⟩

/-! ## Helper lemmas -/

lemma acquireMatches_iff (now : Nat) (r : LockRow) (t : String) :
    acquireMatches now r t = true ↔ (rowFreeAt now r ∨ r.token = some t) := by
  obtain ⟨tok, exp⟩ := r
  cases tok <;> cases exp <;>
    simp [acquireMatches, sqlFreeCond, sqlTokenEq, rowFreeAt]

lemma acquireStep_affected_iff (now ttl : Nat) (t : String) (r : LockRow) :
    (acquireStep now ttl t r).2 = 1 ↔ acquireMatches now r t = true := by
  by_cases h : acquireMatches now r t <;> simp [acquireStep, h]

lemma acquireStep_match_row (now ttl : Nat) (t : String) (r : LockRow)
    (h : acquireMatches now r t = true) :
    acquireStep now ttl t r = ({ token := some t, expireAt := some (now + ttl) }, 1) := by
  simp [acquireStep, h]

lemma acquireStep_nomatch (now ttl : Nat) (t : String) (r : LockRow)
    (h : acquireMatches now r t = false) :
    acquireStep now ttl t r = (r, 0) := by
  simp [acquireStep, h]

lemma mem_errChain_self (e : GoErr) : e ∈ errChain e := by
  cases e <;> simp [errChain]

lemma errChain_trans : ∀ {e x y : GoErr}, x ∈ errChain e → y ∈ errChain x → y ∈ errChain e := by
  intro e
  induction e with
  | leaf t =>
    intro x y hx hy
    simp [errChain] at hx
    subst hx
    simpa [errChain] using hy
  | wrap t c ih =>
    intro x y hx hy
    rw [errChain] at hx
    rcases List.mem_cons.1 hx with h | h
    · subst h
      exact hy
    · exact List.mem_cons_of_mem _ (ih h hy)

lemma registryAfter_concat (regs : List (GoErr → Bool)) (f : GoErr → Bool) :
    registryAfter (regs ++ [f]) = some (registerIsRetryableFunc (registryAfter regs) f) := by
  simp [registryAfter, List.foldl_append]

lemma registerIsRetryableFunc_eq (prev : Option (GoErr → Bool)) (f : GoErr → Bool)
    (e : GoErr) :
    registerIsRetryableFunc prev f e =
      (errChain e).any (fun x => getIsRetryable prev x || f x) := by
  cases prev <;> rfl

lemma getIsRetryable_registryAfter (regs : List (GoErr → Bool)) (e : GoErr) :
    getIsRetryable (registryAfter regs) e = true ↔
      ∃ f ∈ regs, ∃ x ∈ errChain e, f x = true := by
  induction regs using List.reverseRecOn generalizing e with
  | nil => simp [registryAfter, getIsRetryable, isRetryableNoDriver]
  | append_singleton regs f ih =>
    rw [registryAfter_concat]
    have hstep : getIsRetryable (some (registerIsRetryableFunc (registryAfter regs) f)) e =
        (errChain e).any (fun x => getIsRetryable (registryAfter regs) x || f x) :=
      registerIsRetryableFunc_eq _ _ _
    rw [hstep, List.any_eq_true]
    constructor
    · rintro ⟨x, hx, hor⟩
      rw [Bool.or_eq_true] at hor
      rcases hor with hprev | hf
      · obtain ⟨g, hg, y, hy, hgy⟩ := (ih x).1 hprev
        exact ⟨g, List.mem_append_left _ hg, y, errChain_trans hx hy, hgy⟩
      · exact ⟨f, List.mem_append_right _ (List.mem_singleton.2 rfl), x, hx, hf⟩
    · rintro ⟨g, hg, x, hx, hgx⟩
      rcases List.mem_append.1 hg with hg | hg
      · have hp : getIsRetryable (registryAfter regs) x = true :=
          (ih x).2 ⟨g, hg, x, mem_errChain_self x, hgx⟩
        exact ⟨x, hx, by simp [hp]⟩
      · have hgf : g = f := List.mem_singleton.1 hg
        exact ⟨x, hx, by simp [hgf ▸ hgx]⟩

lemma errChain_wrapLayers (tags : List Nat) (e : GoErr) :
    ∀ y ∈ errChain e, y ∈ errChain (wrapLayers tags e) := by
  induction tags with
  | nil => simp [wrapLayers]
  | cons t ts ih =>
    intro y hy
    simp only [wrapLayers, List.foldr_cons, errChain]
    exact List.mem_cons_of_mem _ (ih y hy)

lemma applyOne_key (q : dbQueries) (l : DBLock) (c : AcquireCall) :
    ((AcquireWithStaticToken q l c.executor c.ctxErr c.token c.lockTTL).1).Key = l.Key := by
  obtain ⟨ex, ctx, tok, ttl⟩ := c
  cases h : execQueryAndCheck ex ctx q.acquireLock [q.intervalMaker ttl, tok, l.Key, tok]
      .lockAlreadyAcquired with
  | none => simp [AcquireWithStaticToken, h]
  | some e => simp [AcquireWithStaticToken, h]

lemma applyOne_token (q : dbQueries) (l : DBLock) (c : AcquireCall) :
    ((AcquireWithStaticToken q l c.executor c.ctxErr c.token c.lockTTL).1).token =
      if acquireCallSucceeds q l.Key c = true then c.token else l.token := by
  obtain ⟨ex, ctx, tok, ttl⟩ := c
  cases h : execQueryAndCheck ex ctx q.acquireLock [q.intervalMaker ttl, tok, l.Key, tok]
      .lockAlreadyAcquired with
  | none => simp [AcquireWithStaticToken, acquireCallSucceeds, h]
  | some e => simp [AcquireWithStaticToken, acquireCallSucceeds, h]

lemma lastSuccessToken_no_success (q : dbQueries) (key : String) (calls : List AcquireCall)
    (start : String) (h : ∀ c ∈ calls, acquireCallSucceeds q key c = false) :
    lastSuccessToken q key calls start = start := by
  induction calls generalizing start with
  | nil => rfl
  | cons c cs ih =>
    have hc := h c (List.mem_cons_self c cs)
    have hstep : lastSuccessToken q key (c :: cs) start =
        lastSuccessToken q key cs (if acquireCallSucceeds q key c = true then c.token else start) := rfl
    rw [hstep, hc]
    simpa using ih start (fun c' hc' => h c' (List.mem_cons_of_mem _ hc'))

/-! ## Claim theorems -/

/-- **C1.** Mutual exclusion of the per-key lock row model: at most one token
is held at any server-side instant; the acquire statement affects the row
exactly when the row is free or already carries the same token (and leaves it
unchanged otherwise); hence after a successful acquire with `t1`, an acquire
with a distinct token `t2` at the same instant affects nothing, and `t1` —
not `t2` — holds the key. -/
theorem acquire_mutual_exclusion (now ttl : Nat) (row : Option LockRow) (r : LockRow)
    (t1 t2 : String) :
    (heldBy now row t1 → heldBy now row t2 → t1 = t2) ∧
    ((acquireStep now ttl t1 r).2 = 1 ↔ (rowFreeAt now r ∨ r.token = some t1)) ∧
    ((acquireStep now ttl t1 r).2 ≠ 1 → (acquireStep now ttl t1 r).1 = r) ∧
    (t1 ≠ t2 → (acquireStep now ttl t1 r).2 = 1 →
      (acquireStep now ttl t2 (acquireStep now ttl t1 r).1).2 = 0 ∧
      heldBy now (some (acquireStep now ttl t1 r).1) t1 ∧
      ¬ heldBy now (some (acquireStep now ttl t1 r).1) t2) := by
  refine ⟨?_, ?_, ?_, ?_⟩
  · rintro ⟨r1, hr1, htok1, -⟩ ⟨r2, hr2, htok2, -⟩
    rw [hr1] at hr2
    injection hr2 with h12
    rw [h12] at htok1
    rw [htok1] at htok2
    injection htok2
  · rw [acquireStep_affected_iff, acquireMatches_iff]
  · intro h
    by_cases hm : acquireMatches now r t1
    · exact absurd ((acquireStep_affected_iff now ttl t1 r).2 hm) h
    · rw [acquireStep_nomatch now ttl t1 r (by simpa using hm)]
  · intro hne h1
    have hm := (acquireStep_affected_iff now ttl t1 r).1 h1
    rw [acquireStep_match_row now ttl t1 r hm]
    refine ⟨?_, ?_, ?_⟩
    · have : acquireMatches now ⟨some t1, some (now + ttl)⟩ t2 = false := by
        simp only [acquireMatches, sqlFreeCond, sqlTokenEq, Bool.or_eq_false_iff,
          decide_eq_false_iff_not]
        exact ⟨by omega, hne⟩
      rw [acquireStep_nomatch now ttl t2 _ this]
    · exact ⟨_, rfl, rfl, now + ttl, rfl, Nat.le_add_right now ttl⟩
    · rintro ⟨r2, hr2, htok, -⟩
      injection hr2 with h2
      rw [← h2] at htok
      injection htok with ht
      exact hne ht

/-- Witness for C1 at concrete inputs: the uniqueness part applied to a row
held by `"a"`, and the guard and distinct-token parts applied to a free
row. -/
theorem acquire_mutual_exclusion_witness :
    ("a" : String) = "a" ∧
    (acquireStep 5 3 "a" ⟨none, none⟩).2 = 1 ∧
    (acquireStep 5 3 "b" (acquireStep 5 3 "a" ⟨none, none⟩).1).2 = 0 := by
  have held : heldBy 5 (some ⟨some "a", some 9⟩) "a" :=
    ⟨⟨some "a", some 9⟩, rfl, rfl, 9, rfl, by decide⟩
  have h1 := (acquire_mutual_exclusion 5 3 (some ⟨some "a", some 9⟩) ⟨none, none⟩ "a" "a").1
    held held
  have h2 := (acquire_mutual_exclusion 5 3 none ⟨none, none⟩ "a" "b").2.1.2
    (Or.inl (Or.inl rfl))
  have h3 := ((acquire_mutual_exclusion 5 3 none ⟨none, none⟩ "a" "b").2.2.2
    (by decide) h2).1
  exact ⟨h1, h2, h3⟩

/-- **C5.** Static-token reacquire idempotence at the row level: from a row
free at `now1`, an acquire with token `tok` succeeds; a second acquire with
the same token succeeds (at any later instant, via the `token = $tok`
disjunct); and a third acquire with a different token fails with
`LockAlreadyAcquired` while the lease from the second acquire is unexpired
(`now3 ≤ now2 + ttl2`) and no release intervened. -/
theorem static_token_reacquire (now1 ttl1 now2 ttl2 now3 ttl3 : Nat)
    (tok tok2 : String) (r0 : LockRow)
    (hfree : rowFreeAt now1 r0) (hne : tok2 ≠ tok) (hnotexp : now3 ≤ now2 + ttl2) :
    (acquireAtRow now1 ttl1 tok r0).2 = none ∧
    (acquireAtRow now2 ttl2 tok (acquireAtRow now1 ttl1 tok r0).1).2 = none ∧
    (acquireAtRow now3 ttl3 tok2
        (acquireAtRow now2 ttl2 tok (acquireAtRow now1 ttl1 tok r0).1).1).2 =
      some .lockAlreadyAcquired := by
  have hm1 : acquireMatches now1 r0 tok = true :=
    (acquireMatches_iff now1 r0 tok).2 (Or.inl hfree)
  have hs1 := acquireStep_match_row now1 ttl1 tok r0 hm1
  have hm2 : acquireMatches now2 (⟨some tok, some (now1 + ttl1)⟩ : LockRow) tok = true :=
    (acquireMatches_iff _ _ _).2 (Or.inr rfl)
  have hs2 := acquireStep_match_row now2 ttl2 tok _ hm2
  have hm3 : acquireMatches now3 (⟨some tok, some (now2 + ttl2)⟩ : LockRow) tok2 = false := by
    simp only [acquireMatches, sqlFreeCond, sqlTokenEq, Bool.or_eq_false_iff,
      decide_eq_false_iff_not]
    exact ⟨by omega, fun hc => hne hc.symm⟩
  have hs3 := acquireStep_nomatch now3 ttl3 tok2 _ hm3
  refine ⟨?_, ?_, ?_⟩
  · simp [acquireAtRow, hs1]
  · simp [acquireAtRow, hs1, hs2]
  · simp [acquireAtRow, hs1, hs2, hs3]

/-- Witness for C5: a fresh row (NULL token, NULL expiry) at instants 1, 2, 3
with TTL 10 and tokens `"T"` then `"U"`. -/
theorem static_token_reacquire_witness :
    (acquireAtRow 1 10 "T" ⟨none, none⟩).2 = none ∧
    (acquireAtRow 2 10 "T" (acquireAtRow 1 10 "T" ⟨none, none⟩).1).2 = none ∧
    (acquireAtRow 3 10 "U"
        (acquireAtRow 2 10 "T" (acquireAtRow 1 10 "T" ⟨none, none⟩).1).1).2 =
      some .lockAlreadyAcquired :=
  static_token_reacquire 1 10 2 10 3 10 "T" "U" ⟨none, none⟩
    (Or.inl rfl) (by decide) (by decide)

/-- **C10.** Lock-manager construction is restricted to the `postgres`,
`pgx`, and `mysql` dialects: for any other dialect (in particular `sqlite3`
and `mssql`) `newDBQueries`, and with it `NewDBManagerWithOpts` and
`NewDBManager`, return the "unsupported sql dialect" error and no manager. -/
theorem newDBQueries_unsupported_dialect (d tableName : String) (opts : DBManagerOpts)
    (h1 : d ≠ DialectPostgres) (h2 : d ≠ DialectPgx) (h3 : d ≠ DialectMySQL) :
    newDBQueries d tableName = .error (.unsupportedDialect d) ∧
    NewDBManagerWithOpts d opts = .error (.unsupportedDialect d) ∧
    NewDBManager d = .error (.unsupportedDialect d) ∧
    newDBQueries DialectSQLite tableName = .error (.unsupportedDialect DialectSQLite) ∧
    newDBQueries DialectMSSQL tableName = .error (.unsupportedDialect DialectMSSQL) := by
  have hq : ∀ t, newDBQueries d t = .error (.unsupportedDialect d) := by
    intro t
    simp [newDBQueries, h1, h2, h3]
  refine ⟨hq tableName, ?_, ?_, ?_, ?_⟩
  · rw [NewDBManagerWithOpts, hq]
  · rw [NewDBManager, NewDBManagerWithOpts, hq]
  · simp [newDBQueries, DialectSQLite, DialectPostgres, DialectPgx, DialectMySQL]
  · simp [newDBQueries, DialectMSSQL, DialectPostgres, DialectPgx, DialectMySQL]

/-- Witness for C10 at the concrete dialect `"sqlite3"`. -/
theorem newDBQueries_unsupported_dialect_witness :
    newDBQueries "sqlite3" defaultTableName = .error (.unsupportedDialect "sqlite3") ∧
    NewDBManager "sqlite3" = .error (.unsupportedDialect "sqlite3") := by
  have h := newDBQueries_unsupported_dialect "sqlite3" defaultTableName ⟨defaultTableName⟩
    (by decide) (by decide) (by decide)
  exact ⟨h.1, h.2.2.1⟩

/-- **C2.** Acquire contract when the statement executes without a driver
error and the context is live: `Acquire` delegates to
`AcquireWithStaticToken`, which succeeds — storing the TTL and token on the
handle — exactly when the statement reports one affected row, and returns
`LockAlreadyAcquired` with the handle unchanged on zero affected rows. -/
theorem acquire_contract (q : dbQueries) (l : DBLock) (ex : sqlExecutor)
    (tok : String) (ttl : Int) (n : Int)
    (hrun : ex.run q.acquireLock [q.intervalMaker ttl, tok, l.Key, tok] = .ok (.ok n)) :
    (Acquire q l ex none tok ttl = AcquireWithStaticToken q l ex none tok ttl) ∧
    (AcquireWithStaticToken q l ex none tok ttl =
        ({ l with TTL := ttl, token := tok }, none) ↔ n = 1) ∧
    (n = 0 → AcquireWithStaticToken q l ex none tok ttl = (l, some .lockAlreadyAcquired)) := by
  refine ⟨rfl, ?_, ?_⟩
  · by_cases hn : n = 1
    · simp [AcquireWithStaticToken, execQueryAndCheck, hrun, hn]
    · simp [AcquireWithStaticToken, execQueryAndCheck, hrun, hn]
  · intro h0
    simp [AcquireWithStaticToken, execQueryAndCheck, hrun, h0]

/-- Witness for C2: a handle for key `"job-A"` acquired with token `"T"` and
TTL 1s against a driver reporting one affected row (success, handle updated)
and against one reporting zero (`LockAlreadyAcquired`, handle unchanged). -/
theorem acquire_contract_witness :
    AcquireWithStaticToken (postgresQueriesFor defaultTableName)
        { Key := "job-A" } execAlwaysOne none "T" 1000000000 =
      ({ Key := "job-A", TTL := 1000000000, token := "T" }, none) ∧
    AcquireWithStaticToken (postgresQueriesFor defaultTableName)
        { Key := "job-A" } execAlwaysZero none "T" 1000000000 =
      ({ Key := "job-A" }, some .lockAlreadyAcquired) := by
  constructor
  · exact (acquire_contract (postgresQueriesFor defaultTableName) { Key := "job-A" }
      execAlwaysOne "T" 1000000000 1 rfl).2.1.2 rfl
  · exact (acquire_contract (postgresQueriesFor defaultTableName) { Key := "job-A" }
      execAlwaysZero "T" 1000000000 0 rfl).2.2 rfl

/-- **C3.** Cancellation takes precedence over domain errors: when the
statement executes without a driver error but `ctx.Err()` is non-nil at the
check point, acquire (leaving the handle untouched), release, and extend all
return the context's error `ce` — never `LockAlreadyAcquired` or
`LockAlreadyReleased` — whatever the affected-row outcome was. -/
theorem cancellation_precedence (q : dbQueries) (l : DBLock) (ex : sqlExecutor)
    (ce : LockError) (tok : String) (ttl : Int) (a1 a2 a3 : Except LockError Int)
    (hrun1 : ex.run q.acquireLock [q.intervalMaker ttl, tok, l.Key, tok] = .ok a1)
    (hrun2 : ex.run q.releaseLock [l.Key, l.token] = .ok a2)
    (hrun3 : ex.run q.extendLock [q.intervalMaker l.TTL, l.Key, l.token] = .ok a3) :
    AcquireWithStaticToken q l ex (some ce) tok ttl = (l, some ce) ∧
    Release q l ex (some ce) = some ce ∧
    Extend q l ex (some ce) = some ce := by
  refine ⟨?_, ?_, ?_⟩
  · simp [AcquireWithStaticToken, execQueryAndCheck, hrun1]
  · simp [Release, execQueryAndCheck, hrun2]
  · simp [Extend, execQueryAndCheck, hrun3]

/-- Witness for C3: with a driver reporting one affected row on every
statement but a cancelled context, all three operations surface the context
error. -/
theorem cancellation_precedence_witness :
    AcquireWithStaticToken (postgresQueriesFor defaultTableName)
        { Key := "job-A" } execAlwaysOne (some (.ctxError 0)) "T" 1000 =
      ({ Key := "job-A" }, some (.ctxError 0)) ∧
    Release (postgresQueriesFor defaultTableName) { Key := "job-A" } execAlwaysOne
        (some (.ctxError 0)) = some (.ctxError 0) ∧
    Extend (postgresQueriesFor defaultTableName) { Key := "job-A" } execAlwaysOne
        (some (.ctxError 0)) = some (.ctxError 0) :=
  cancellation_precedence (postgresQueriesFor defaultTableName) { Key := "job-A" }
    execAlwaysOne (.ctxError 0) "T" 1000 (.ok 1) (.ok 1) (.ok 1) rfl rfl rfl

/-- **C4.** Transaction helper contract: `DoInTx` delegates to
`DoInTxWithOpts`; a begin failure returns the begin-error wrapping the cause
and never calls `fn`; an error from `fn` rolls back and is returned
unchanged; a panic from `fn` rolls back and is re-raised; a normal return
commits, wrapping a commit failure and returning `nil` otherwise; and the
result never depends on the rollback outcome (it is discarded). -/
theorem doInTx_contract (beginE commitE rb rb2 : Option TxError) (fnRes : FnOutcome)
    (e : TxError) (p : Nat) :
    (DoInTx beginE commitE rb fnRes = DoInTxWithOpts beginE commitE rb fnRes) ∧
    (∀ eb, beginE = some eb →
      DoInTxWithOpts beginE commitE rb fnRes = (.ret (some (.beginError eb)), []) ∧
      TxEvent.fnCalled ∉ (DoInTxWithOpts beginE commitE rb fnRes).2) ∧
    (beginE = none →
      (DoInTxWithOpts beginE commitE rb (.err e) =
        (.ret (some e), [.beganTx, .fnCalled, .rolledBack])) ∧
      (DoInTxWithOpts beginE commitE rb (.panics p) =
        (.panicked p, [.beganTx, .fnCalled, .rolledBack])) ∧
      (∀ ec, commitE = some ec →
        DoInTxWithOpts beginE commitE rb .ok =
          (.ret (some (.commitError ec)), [.beganTx, .fnCalled, .committed])) ∧
      (commitE = none →
        DoInTxWithOpts beginE commitE rb .ok = (.ret none, [.beganTx, .fnCalled, .committed]))) ∧
    (DoInTxWithOpts beginE commitE rb fnRes = DoInTxWithOpts beginE commitE rb2 fnRes) := by
  refine ⟨rfl, ?_, ?_, rfl⟩
  · rintro eb rfl
    exact ⟨rfl, by simp [DoInTxWithOpts]⟩
  · rintro rfl
    refine ⟨rfl, rfl, ?_, ?_⟩
    · rintro ec rfl
      rfl
    · rintro rfl
      rfl

/-- Witness for C4: a begin failure wrapping `base 1`; a function error
`base 2` returned unchanged after rollback; a commit failure wrapping
`base 3`; a panic `7` re-raised after rollback. -/
theorem doInTx_contract_witness :
    DoInTxWithOpts (some (.base 1)) none none .ok = (.ret (some (.beginError (.base 1))), []) ∧
    DoInTxWithOpts none none none (.err (.base 2)) =
      (.ret (some (.base 2)), [.beganTx, .fnCalled, .rolledBack]) ∧
    DoInTxWithOpts none none none (.panics 7) =
      (.panicked 7, [.beganTx, .fnCalled, .rolledBack]) ∧
    DoInTxWithOpts none (some (.base 3)) none .ok =
      (.ret (some (.commitError (.base 3))), [.beganTx, .fnCalled, .committed]) := by
  refine ⟨?_, ?_, ?_, ?_⟩
  · exact ((doInTx_contract (some (.base 1)) none none none .ok (.base 2) 7).2.1
      (.base 1) rfl).1
  · exact ((doInTx_contract none none none none (.err (.base 2)) (.base 2) 7).2.2.1 rfl).1
  · exact ((doInTx_contract none none none none (.panics 7) (.base 2) 7).2.2.1 rfl).2.1
  · exact ((doInTx_contract none (some (.base 3)) none none .ok (.base 2) 7).2.2.1
      rfl).2.2.1 (.base 3) rfl

/-- **C6.** `DoExclusively` boundary behaviour: a failed initial acquire is
returned as-is without invoking the user function or attempting release; on a
successful acquire the result is the user function's result, and after the
function returns the extension task is stopped and release is attempted under
a fresh background context with timeout `releaseTimeout` — for any state of
the caller's context — with a release error logged, not propagated. -/
theorem doExclusively_contract (acquireRes releaseRes : Option LockError)
    (callerCtxCanceled : Bool) (fn : Bool → Option LockError) (releaseTimeout : Int) :
    (∀ e, acquireRes = some e →
      DoExclusively acquireRes callerCtxCanceled fn releaseRes releaseTimeout = (some e, [])) ∧
    (acquireRes = none →
      (DoExclusively acquireRes callerCtxCanceled fn releaseRes releaseTimeout).1 =
        fn callerCtxCanceled ∧
      (DoExclusively acquireRes callerCtxCanceled fn releaseRes releaseTimeout).2 =
        [.fnCalled, .extensionStopped,
          .releaseAttempted (.freshBackgroundWithTimeout releaseTimeout)] ++
          (match releaseRes with
           | some re => [DoExEvent.releaseErrorLogged re]
           | none => []) ∧
      (∀ re, releaseRes = some re →
        DoExclusively acquireRes callerCtxCanceled fn releaseRes releaseTimeout =
          (fn callerCtxCanceled,
            [.fnCalled, .extensionStopped,
              .releaseAttempted (.freshBackgroundWithTimeout releaseTimeout),
              .releaseErrorLogged re]))) := by
  constructor
  · rintro e rfl
    rfl
  · rintro rfl
    refine ⟨rfl, rfl, ?_⟩
    rintro re rfl
    rfl

/-- Witness for C6: a failed acquire (`LockAlreadyAcquired`) is returned
without calling the function; a successful acquire with a cancelled caller
context runs the function and still releases under the fresh background
context, logging the release error. -/
theorem doExclusively_contract_witness :
    DoExclusively (some .lockAlreadyAcquired) false (fun _ => none) none 5 =
      (some .lockAlreadyAcquired, []) ∧
    DoExclusively none true (fun c => if c then some (.ctxError 0) else none)
        (some .lockAlreadyReleased) 5 =
      (some (.ctxError 0),
        [.fnCalled, .extensionStopped, .releaseAttempted (.freshBackgroundWithTimeout 5),
          .releaseErrorLogged .lockAlreadyReleased]) := by
  constructor
  · exact (doExclusively_contract (some .lockAlreadyAcquired) none false
      (fun _ => none) 5).1 .lockAlreadyAcquired rfl
  · exact ((doExclusively_contract none (some .lockAlreadyReleased) true
      (fun c => if c then some (.ctxError 0) else none) 5).2 rfl).2.2
      .lockAlreadyReleased rfl

/-- **C7.** Retry-classifier composition: the predicate for an unregistered
driver is false on every error; after any FIFO sequence of
`RegisterIsRetryableFunc` calls the resulting predicate holds on `e` exactly
when some registered predicate holds on some error of `e`'s unwrap chain; and
consequently wrapping a transient error in arbitrary causal layers keeps the
answer `true`. -/
theorem retry_classifier_composition (regs : List (GoErr → Bool)) (e : GoErr)
    (tags : List Nat) :
    (getIsRetryable (registryAfter []) e = false) ∧
    (getIsRetryable (registryAfter regs) e = true ↔
      ∃ f ∈ regs, ∃ x ∈ errChain e, f x = true) ∧
    (getIsRetryable (registryAfter regs) e = true →
      getIsRetryable (registryAfter regs) (wrapLayers tags e) = true) := by
  refine ⟨rfl, getIsRetryable_registryAfter regs e, ?_⟩
  intro h
  rw [getIsRetryable_registryAfter] at h ⊢
  obtain ⟨f, hf, x, hx, hfx⟩ := h
  exact ⟨f, hf, x, errChain_wrapLayers tags e x hx, hfx⟩

/-- Witness for C7: one registered predicate matching the error `leaf 7`;
the classifier recognizes `wrap 3 (leaf 7)` and still does after wrapping it
in two more causal layers. -/
theorem retry_classifier_composition_witness :
    getIsRetryable (registryAfter []) (GoErr.leaf 7) = false ∧
    getIsRetryable (registryAfter [fun x => decide (x = GoErr.leaf 7)])
      (GoErr.wrap 3 (GoErr.leaf 7)) = true ∧
    getIsRetryable (registryAfter [fun x => decide (x = GoErr.leaf 7)])
      (wrapLayers [1, 2] (GoErr.wrap 3 (GoErr.leaf 7))) = true := by
  have h := retry_classifier_composition [fun x => decide (x = GoErr.leaf 7)]
    (GoErr.wrap 3 (GoErr.leaf 7)) [1, 2]
  have htrue : getIsRetryable (registryAfter [fun x => decide (x = GoErr.leaf 7)])
      (GoErr.wrap 3 (GoErr.leaf 7)) = true :=
    h.2.1.2 ⟨fun x => decide (x = GoErr.leaf 7), List.mem_singleton.2 rfl,
      GoErr.leaf 7, by simp [errChain], by simp⟩
  exact ⟨h.1, htrue, h.2.2 htrue⟩

/-- A key of 21 two-byte characters: 21 characters, 42 UTF-8 bytes. -/
def alphaKey : String := "ααααααααααααααααααααα"

/-- Counterexample to **C8** as stated: `alphaKey` is non-empty and has only
21 characters — not "longer than 40 characters" — yet `NewLock` rejects it
with the too-long error and executes no SQL, because the source checks
`len(key)`, the UTF-8 byte length (42 here). -/
theorem newLock_byte_length_counterexample :
    alphaKey ≠ "" ∧
    alphaKey.length = 21 ∧
    alphaKey.utf8ByteSize = 42 ∧
    (NewLock (postgresQueriesFor defaultTableName) execAlwaysOne alphaKey).1 =
      .error (.invalidKey "lock key cannot be longer than 40 symbols") ∧
    (NewLock (postgresQueriesFor defaultTableName) execAlwaysOne alphaKey).2 = [] := by
  refine ⟨by decide, by decide, by decide, ?_, ?_⟩ <;> rfl

/-- **C8 (amended).** `NewLock` key validation with the byte-length bound:
an empty key, or one longer than 40 UTF-8 bytes (equivalently, characters,
for ASCII keys), fails synchronously with the corresponding invalid-key
error and executes no SQL; any other key executes exactly the `initLock`
insert-if-absent statement and, when the driver reports no error, yields a
handle with empty token (and a driver error is propagated). -/
theorem newLock_key_validation (q : dbQueries) (ex : sqlExecutor) (key : String) :
    (key = "" → NewLock q ex key = (.error (.invalidKey "lock key cannot be empty"), [])) ∧
    (key ≠ "" → key.utf8ByteSize > 40 →
      NewLock q ex key =
        (.error (.invalidKey "lock key cannot be longer than 40 symbols"), [])) ∧
    (key ≠ "" → key.utf8ByteSize ≤ 40 →
      (NewLock q ex key).2 = [(q.initLock, [key])] ∧
      (∀ res, ex.run q.initLock [key] = .ok res →
        NewLock q ex key = (.ok { Key := key, TTL := 0, token := "" }, [(q.initLock, [key])])) ∧
      (∀ e, ex.run q.initLock [key] = .fail e →
        NewLock q ex key = (.error e, [(q.initLock, [key])]))) := by
  refine ⟨?_, ?_, ?_⟩
  · rintro rfl
    rfl
  · intro hne hlen
    simp [NewLock, hne, hlen]
  · intro hne hlen
    have hnotlen : ¬ key.utf8ByteSize > 40 := not_lt.2 hlen
    refine ⟨?_, ?_, ?_⟩
    · cases hrun : ex.run q.initLock [key] with
      | fail e => simp [NewLock, hne, hnotlen, hrun]
      | ok res => simp [NewLock, hne, hnotlen, hrun]
    · intro res hrun
      simp [NewLock, hne, hnotlen, hrun]
    · intro e hrun
      simp [NewLock, hne, hnotlen, hrun]

/-- Witness for C8 (amended): the empty key, the over-long `alphaKey`, and
the valid key `"job-A"` against a clean driver. -/
theorem newLock_key_validation_witness :
    NewLock (postgresQueriesFor defaultTableName) execAlwaysOne "" =
      (.error (.invalidKey "lock key cannot be empty"), []) ∧
    NewLock (postgresQueriesFor defaultTableName) execAlwaysOne alphaKey =
      (.error (.invalidKey "lock key cannot be longer than 40 symbols"), []) ∧
    NewLock (postgresQueriesFor defaultTableName) execAlwaysOne "job-A" =
      (.ok { Key := "job-A", TTL := 0, token := "" },
        [((postgresQueriesFor defaultTableName).initLock, ["job-A"])]) := by
  refine ⟨?_, ?_, ?_⟩
  · exact (newLock_key_validation (postgresQueriesFor defaultTableName)
      execAlwaysOne "").1 rfl
  · exact (newLock_key_validation (postgresQueriesFor defaultTableName)
      execAlwaysOne alphaKey).2.1 (by decide) (by decide)
  · exact ((newLock_key_validation (postgresQueriesFor defaultTableName)
      execAlwaysOne "job-A").2.2 (by decide) (by decide)).2.1 (.ok 1) rfl

/-- A call that succeeds with token `"A"` (driver reports one affected
row). -/
def succeedACall : AcquireCall := ⟨execAlwaysOne, none, "A", 1000⟩

/-- A call with token `"B"` that fails (driver reports zero affected
rows). -/
def failBCall : AcquireCall := ⟨execAlwaysZero, none, "B", 1000⟩

/-- Counterexample to **C9** as stated: after a successful acquire with
token `"A"` followed by a failed acquire, the handle's last acquire failed,
yet `Token` returns `"A"`, not the empty string — a failed acquire leaves the
token unchanged. -/
theorem token_after_failed_acquire_counterexample :
    acquireCallSucceeds (postgresQueriesFor defaultTableName) "job-A" succeedACall = true ∧
    acquireCallSucceeds (postgresQueriesFor defaultTableName) "job-A" failBCall = false ∧
    Token (applyAcquireCalls (postgresQueriesFor defaultTableName) { Key := "job-A" }
      [succeedACall, failBCall]) = "A" := by
  refine ⟨rfl, rfl, rfl⟩

/-- **C9 (amended).** For every handle and every sequence of acquire
operations on it, `Token` returns the token of the most recent *successful*
acquire, or the handle's starting token — the empty string for a handle
produced by `NewLock` — when no acquire in the sequence succeeded (in
particular when the handle was never acquired). -/
theorem token_reflects_last_successful_acquire (q : dbQueries) (l : DBLock)
    (calls : List AcquireCall) :
    Token (applyAcquireCalls q l calls) = lastSuccessToken q l.Key calls l.token ∧
    ((∀ c ∈ calls, acquireCallSucceeds q l.Key c = false) →
      Token (applyAcquireCalls q l calls) = l.token) ∧
    (∀ ex key, (NewLock q ex key).1 = .ok l → l.token = "") := by
  have main : ∀ (calls : List AcquireCall) (l : DBLock),
      Token (applyAcquireCalls q l calls) = lastSuccessToken q l.Key calls l.token := by
    intro calls
    induction calls with
    | nil => intro l; rfl
    | cons c cs ih =>
      intro l
      have step1 : applyAcquireCalls q l (c :: cs) =
          applyAcquireCalls q
            ((AcquireWithStaticToken q l c.executor c.ctxErr c.token c.lockTTL).1) cs := rfl
      have step2 : lastSuccessToken q l.Key (c :: cs) l.token =
          lastSuccessToken q l.Key cs
            (if acquireCallSucceeds q l.Key c = true then c.token else l.token) := rfl
      rw [step1, step2,
        ih ((AcquireWithStaticToken q l c.executor c.ctxErr c.token c.lockTTL).1),
        applyOne_key, applyOne_token]
  refine ⟨main calls l, ?_, ?_⟩
  · intro h
    rw [main calls l, lastSuccessToken_no_success q l.Key calls l.token h]
  · intro ex key h
    by_cases hk : key = ""
    · simp [NewLock, hk] at h
    · by_cases hlen : key.utf8ByteSize > 40
      · simp [NewLock, hk, hlen] at h
      · cases hrun : ex.run q.initLock [key] with
        | fail e => simp [NewLock, hk, hlen, hrun] at h
        | ok res =>
          simp [NewLock, hk, hlen, hrun] at h
          rw [← h]

/-- Witness for C9 (amended): a fresh `"job-A"` handle sees one failing call;
its token stays empty, matching `lastSuccessToken`. -/
theorem token_reflects_last_successful_acquire_witness :
    Token (applyAcquireCalls (postgresQueriesFor defaultTableName) { Key := "job-A" }
      [failBCall]) = "" ∧
    ({ Key := "job-A" } : DBLock).token = "" := by
  have h := token_reflects_last_successful_acquire (postgresQueriesFor defaultTableName)
    { Key := "job-A" } [failBCall]
  constructor
  · exact h.2.1 (by intro c hc; rw [List.mem_singleton.1 hc]; rfl)
  · exact h.2.2 execAlwaysOne "job-A" rfl

end DbKit
